import Mathlib

/-!
Shallow embedding of `custom_components/vivint/hub.py`: the Vivint hub
wrapper (login / MFA / disconnect state machine), the device-registry
identifier helpers, the capability/feature predicates, and the
device-info record computed at entity construction.

Vendor device attributes (`id`, `parent`, `is_subdevice`, `panel_id`,
`name`, `manufacturer`, `model`, `software_version`, `alarm_panel`,
`capabilities`, `features`) are modelled as fields of an inductive
device type; optional attributes are `Option`s, and attribute access on
a `None` value (a Python `AttributeError`) is modelled by returning
`none` from the embedding of the code that performs the access.
Vendor enumeration values (`CapabilityCategoryType`, `CapabilityType`,
`FeatureType`) are modelled as natural numbers, since only equality
tests on them matter.
-/

/-- Modelled from the spec: the domain constant imported from `.const`
(`const.py` is not under `src/`); the spec calls it the
"domain-constant".  Its concrete value is immaterial to every claim. -/
def DOMAIN : String := "vivint"

abbrev Category := Nat
abbrev Capability := Nat
abbrev Feature := Nat

/-- Scalar (non-recursive) attributes of a vendor device object. -/
structure DeviceAttrs where
  id : String
  panel_id : String
  is_subdevice : Bool
  name : Option String
  manufacturer : Option String
  model : Option String
  software_version : Option String
  capabilities : Option (List (Category × List Capability))
  features : Option (List Feature)
  is_alarm_panel : Bool
  class_name : String
deriving Repr, DecidableEq

/-- A vendor device object: scalar attributes together with the
(optional) `parent` device and the (optional) owning `alarm_panel`. -/
inductive VivintDevice : Type where
  | mk (attrs : DeviceAttrs) (parent : Option VivintDevice)
       (alarm_panel : Option VivintDevice)

namespace VivintDevice

def attrs : VivintDevice → DeviceAttrs
  | mk a _ _ => a

def parent : VivintDevice → Option VivintDevice
  | mk _ p _ => p

def alarm_panel : VivintDevice → Option VivintDevice
  | mk _ _ ap => ap

def id (d : VivintDevice) : String := d.attrs.id

def panel_id (d : VivintDevice) : String := d.attrs.panel_id

def is_subdevice (d : VivintDevice) : Bool := d.attrs.is_subdevice

def name (d : VivintDevice) : Option String := d.attrs.name

def manufacturer (d : VivintDevice) : Option String := d.attrs.manufacturer

def model (d : VivintDevice) : Option String := d.attrs.model

def software_version (d : VivintDevice) : Option String :=
  d.attrs.software_version

def capabilities (d : VivintDevice) :
    Option (List (Category × List Capability)) := d.attrs.capabilities

def features (d : VivintDevice) : Option (List Feature) := d.attrs.features

/-- Models `isinstance(device, AlarmPanel)`. -/
def is_alarm_panel (d : VivintDevice) : Bool := d.attrs.is_alarm_panel

/-- Models `type(device).__name__`. -/
def class_name (d : VivintDevice) : String := d.attrs.class_name

end VivintDevice

/-- Embedding of `get_device_id` (hub.py lines 43-49):
`(DOMAIN, f"{device.panel_id}-{device.parent.id if device.is_subdevice else device.id}")`.
When `is_subdevice` is true and `parent` is `None`, the Python attribute
access `device.parent.id` raises, modelled as `none`. -/
def get_device_id (device : VivintDevice) : Option (String × String) :=
  if device.is_subdevice then
    device.parent.map (fun p => (DOMAIN, device.panel_id ++ "-" ++ p.id))
  else
    some (DOMAIN, device.panel_id ++ "-" ++ device.id)

/-- Embedding of Python `dict.get(key, [])` on the capability table,
represented as an association list (dict keys are unique, so first
match is the match). -/
def dict_get_opt (m : List (Category × List Capability)) (k : Category) :
    Option (List Capability) :=
  (m.find? (fun e => e.1 == k)).map (fun e => e.2)

/-- Embedding of `has_capability` (hub.py lines 52-56):
`if capability in (device.capabilities or {}).get(category, []): return True`
then `return False`.  `device.capabilities or {}` collapses a `None`
(and an empty) table to the empty dict. -/
def has_capability (device : VivintDevice) (category : Category)
    (capability : Capability) : Bool :=
  if capability ∈ (dict_get_opt (device.capabilities.getD []) category).getD []
  then true else false

/-- Embedding of `has_feature` (hub.py lines 59-61):
`return feature in (device.features or [])`. -/
def has_feature (device : VivintDevice) (feature : Feature) : Bool :=
  decide (feature ∈ device.features.getD [])

/-- The slice of the vendor `Account` object state the hub reads:
its `connected` flag. -/
structure Account where
  connected : Bool
deriving Repr, DecidableEq

/-- The mutable state of a `VivintHub` touched by `login`,
`verify_mfa`, `disconnect` and `save_session`: the `logged_in` flag,
the (initially `None`) `account` handle, the `session.closed` flag of
the owned `ClientSession`, and whether the one-shot `__undo_listener`
callback is still held (`true` = a callable is stored). -/
structure HubState where
  logged_in : Bool
  account : Option Account
  session_closed : Bool
  undo_listener : Bool
deriving Repr, DecidableEq

/-- The exception kinds distinguished by `login`'s `except` clauses,
plus a catch-all for any other exception. -/
inductive VivintError : Type where
  | mfaRequired
  | authenticationError
  | apiError
  | other
deriving Repr, DecidableEq

/-- Embedding of `save_session` (hub.py lines 136-139): sets
`self.logged_in = True` and returns `self.logged_in`. -/
def save_session (s : HubState) : Bool × HubState :=
  let s' := { s with logged_in := true }
  (s'.logged_in, s')

/-- The first two statements of `login` (hub.py lines 94-101):
`self.logged_in = False` followed by `self.account = Account(...)`,
which replaces the handle wholesale with a fresh, not yet connected
account object. -/
def login_start (s : HubState) : HubState :=
  { s with logged_in := false, account := some { connected := false } }

/-- Embedding of `login` (hub.py lines 90-115).  The outcome of the
awaited vendor call `self.account.connect(...)` is passed in as
`connect_result`; on success the vendor client leaves the handle
connected and `login` returns `self.save_session()`; every `except`
clause re-raises the caught exception unchanged, so any error
propagates with the state as `login_start` left it. -/
def login (s : HubState) (connect_result : Except VivintError Unit) :
    Except VivintError Bool × HubState :=
  let s1 := login_start s
  match connect_result with
  | .ok _ =>
      let s2 := { s1 with account := some { connected := true } }
      let (b, s3) := save_session s2
      (.ok b, s3)
  | .error e => (.error e, s1)

/-- Embedding of `verify_mfa` (hub.py lines 128-134).  The outcome of
the awaited vendor call `self.account.verify_mfa(code)` is passed in as
`result`; on success `verify_mfa` returns `self.save_session()`; the
`except Exception` clause re-raises the caught exception unchanged,
leaving the hub state untouched. -/
def verify_mfa (s : HubState) (result : Except VivintError Unit) :
    Except VivintError Bool × HubState :=
  match result with
  | .ok _ =>
      let (b, s') := save_session s
      (.ok b, s')
  | .error e => (.error e, s)

/-- Which awaited side effects one `disconnect` call performed. -/
structure DisconnectActions where
  disconnected_account : Bool
  closed_session : Bool
  invoked_callback : Bool
deriving Repr, DecidableEq

/-- Embedding of `disconnect` (hub.py lines 117-126), the body inside
`async with self._lock` (the lock only serializes concurrent calls and
is invisible to sequential execution).  Reading `self.account.connected`
on a `None` account raises, modelled as `none`.  `account.disconnect()`
leaves the vendor handle not connected and `session.close()` leaves the
session closed (vendor/aiohttp postconditions); the callback reference
is cleared after its one-shot invocation. -/
def disconnect (s : HubState) : Option (DisconnectActions × HubState) :=
  match s.account with
  | none => none
  | some account =>
      let did_disconnect := account.connected
      let account' :=
        if account.connected then { account with connected := false }
        else account
      let did_close := !s.session_closed
      let session_closed' := if !s.session_closed then true else s.session_closed
      let did_callback := s.undo_listener
      let undo' := if s.undo_listener then false else s.undo_listener
      some (⟨did_disconnect, did_close, did_callback⟩,
            { logged_in := s.logged_in, account := some account',
              session_closed := session_closed', undo_listener := undo' })

/-- The device-info record built at entity construction (the fields of
the `DeviceInfo(...)` call).  `identifiers` is the singleton set
`{get_device_id(device)}`. -/
structure DeviceInfo where
  identifiers : List (String × String)
  name : String
  manufacturer : Option String
  model : Option String
  sw_version : Option String
  via_device : Option (String × String)
deriving Repr, DecidableEq

/-- Embedding of line 163 / 196:
`device = self.device.parent if self.device.is_subdevice else self.device`.
A sub-device without a parent resolves to `None`. -/
def resolve_device (d : VivintDevice) : Option VivintDevice :=
  if d.is_subdevice then d.parent else some d

/-- Embedding of the `name=device.name if device.name else type(device).__name__`
argument: Python truthiness makes both a `None` and an empty-string name
fall back to the class name. -/
def info_name (device : VivintDevice) : String :=
  match device.name with
  | none => device.class_name
  | some s => if s = "" then device.class_name else s

/-- Embedding of the `via_device` argument (lines 170-174 / 203-207):
`None if isinstance(device, AlarmPanel) else get_device_id(device.alarm_panel)`.
The outer `Option` is failure (attribute access on `None`); the inner
`Option` is the value assigned to `via_device`. -/
def via_device_of (device : VivintDevice) :
    Option (Option (String × String)) :=
  if device.is_alarm_panel then some none
  else
    match device.alarm_panel with
    | none => none
    | some ap =>
        match get_device_id ap with
        | none => none
        | some t => some (some t)

/-- Embedding of the `self._attr_device_info = DeviceInfo(...)`
assignment shared verbatim by `VivintBaseEntity.__init__` (hub.py lines
163-175) and `VivintEntity.__init__` (lines 196-208): resolve one level
of parent indirection, then build the record; `none` when any attribute
access in the construction raises. -/
def attr_device_info (d : VivintDevice) : Option DeviceInfo :=
  match resolve_device d with
  | none => none
  | some device =>
      match get_device_id device with
      | none => none
      | some ident =>
          match via_device_of device with
          | none => none
          | some via =>
              some { identifiers := [ident],
                     name := info_name device,
                     manufacturer := device.manufacturer,
                     model := device.model,
                     sw_version := device.software_version,
                     via_device := via }

/-- Embedding of the unique-id computation in `VivintBaseEntity.__init__`
(hub.py lines 161-162): `prefix = f"{device.alarm_panel.id}-" if
device.alarm_panel else ""` then
`self._attr_unique_id = f"{prefix}{device.id}-{entity_description.key}"`.
This uses the original (unresolved) device. -/
def attr_unique_id (device : VivintDevice) (key : String) : String :=
  let pfx :=
    match device.alarm_panel with
    | some ap => ap.id ++ "-"
    | none => ""
  pfx ++ device.id ++ "-" ++ key

theorem str_append_assoc (a b c : String) : a ++ b ++ c = a ++ (b ++ c) := by
  apply String.ext
  simp [String.data_append, List.append_assoc]

theorem str_empty_append (s : String) : "" ++ s = s := by
  apply String.ext
  simp [String.data_append]

/-- A concrete alarm panel device. -/
def panelDev : VivintDevice :=
  .mk { id := "100", panel_id := "100", is_subdevice := false,
        name := some "Panel", manufacturer := some "Vivint",
        model := none, software_version := none,
        capabilities := none, features := none,
        is_alarm_panel := true, class_name := "AlarmPanel" } none none

/-- A concrete top-level (non-sub) device owned by `panelDev`. -/
def devA : VivintDevice :=
  .mk { id := "5", panel_id := "100", is_subdevice := false,
        name := some "A", manufacturer := none, model := none,
        software_version := none,
        capabilities := some [(1, [10, 11])], features := some [1, 2],
        is_alarm_panel := false, class_name := "DoorLock" } none (some panelDev)

/-- A concrete sub-device whose parent is `devA`. -/
def devB : VivintDevice :=
  .mk { id := "7", panel_id := "100", is_subdevice := true,
        name := none, manufacturer := none, model := none,
        software_version := none, capabilities := none, features := none,
        is_alarm_panel := false, class_name := "Sensor" } (some devA) (some panelDev)

/-- A concrete device with no owning panel, no capabilities, no features. -/
def devBare : VivintDevice :=
  .mk { id := "9", panel_id := "0", is_subdevice := false,
        name := some "", manufacturer := none, model := none,
        software_version := none, capabilities := none, features := none,
        is_alarm_panel := false, class_name := "Camera" } none none

/-- C1: for a sub-device, `get_device_id` yields the same identity tuple
as for its parent.  The hypotheses `hpanel` and `hptop` encode the
vendor data-model guarantees stated in the spec: at most one level of
nesting (a parent is not itself a sub-device) and a sub-device reports
its parent's panel id. -/
theorem C1_subdevice_id_eq_parent (d p : VivintDevice)
    (hsub : d.is_subdevice = true) (hp : d.parent = some p)
    (hpanel : d.panel_id = p.panel_id) (hptop : p.is_subdevice = false) :
    get_device_id d = get_device_id p := by
  simp [get_device_id, hsub, hp, hptop, hpanel]

/-- Witness for C1 at the concrete devices `devB` (sub) and `devA` (parent). -/
theorem C1_witness : get_device_id devB = get_device_id devA :=
  C1_subdevice_id_eq_parent devB devA rfl rfl rfl rfl

/-- C7: for a non-sub-device, `get_device_id` returns
`(DOMAIN, panel_id ++ "-" ++ id)`. -/
theorem C7_top_device_id (d : VivintDevice) (h : d.is_subdevice = false) :
    get_device_id d = some (DOMAIN, d.panel_id ++ "-" ++ d.id) := by
  simp [get_device_id, h]

/-- Witness for C7 at the concrete device `devA` (spec scenario:
`id="5"`, `panel_id="100"` gives composite id `"100-5"`). -/
theorem C7_witness : get_device_id devA = some (DOMAIN, "100-5") :=
  (C7_top_device_id devA rfl).trans (by decide)

/-- C5: `has_capability` is true exactly when the capability table is
present, maps the category to a value list, and the capability is in
that list. -/
theorem C5_has_capability_iff (d : VivintDevice) (g : Category)
    (c : Capability) :
    has_capability d g c = true ↔
      ∃ tbl vs, d.capabilities = some tbl ∧
        dict_get_opt tbl g = some vs ∧ c ∈ vs := by
  cases hc : d.capabilities with
  | none => simp [has_capability, hc, dict_get_opt]
  | some tbl =>
      cases hg : dict_get_opt tbl g with
      | none => simp [has_capability, hc, hg]
      | some vs => simp [has_capability, hc, hg]

/-- Witness for C5: `devA` has capability 10 under category 1, lacks
capability 12 there, and `devBare` (no table) has nothing. -/
theorem C5_witness :
    (has_capability devA 1 10 = true ↔
      ∃ tbl vs, devA.capabilities = some tbl ∧
        dict_get_opt tbl 1 = some vs ∧ 10 ∈ vs) ∧
    (has_capability devBare 1 10 = true ↔
      ∃ tbl vs, devBare.capabilities = some tbl ∧
        dict_get_opt tbl 1 = some vs ∧ 10 ∈ vs) :=
  ⟨C5_has_capability_iff devA 1 10, C5_has_capability_iff devBare 1 10⟩

/-- C6: `has_feature` is false when the feature list is unset, and
otherwise decides membership in the list. -/
theorem C6_has_feature_spec (d : VivintDevice) (f : Feature) :
    (d.features = none → has_feature d f = false) ∧
    (∀ fs, d.features = some fs → (has_feature d f = true ↔ f ∈ fs)) := by
  constructor
  · intro h; simp [has_feature, h]
  · intro fs h; simp [has_feature, h]

/-- Witness for C6: `devBare` has no feature list; `devA` has `[1, 2]`. -/
theorem C6_witness :
    has_feature devBare 3 = false ∧
    (has_feature devA 1 = true ↔ 1 ∈ [1, 2]) :=
  ⟨(C6_has_feature_spec devBare 3).1 rfl,
   (C6_has_feature_spec devA 1).2 [1, 2] rfl⟩

/-- C8: the unique entity key is `"{panel.id}-{device.id}-{key}"` when
the device has an owning alarm panel, and `"{device.id}-{key}"` when it
has none. -/
theorem C8_unique_id (d : VivintDevice) (k : String) :
    (∀ ap, d.alarm_panel = some ap →
       attr_unique_id d k = ap.id ++ "-" ++ d.id ++ "-" ++ k) ∧
    (d.alarm_panel = none → attr_unique_id d k = d.id ++ "-" ++ k) := by
  constructor
  · intro ap h
    simp [attr_unique_id, h, str_append_assoc]
  · intro h
    simp [attr_unique_id, h, str_empty_append]

/-- Witness for C8 at `devA` (owned by `panelDev`) and `devBare`
(no owning panel), with key `"k"`. -/
theorem C8_witness :
    attr_unique_id devA "k" = (panelDev.id ++ "-" ++ devA.id ++ "-" ++ "k") ∧
    attr_unique_id devBare "k" = devBare.id ++ "-" ++ "k" :=
  ⟨(C8_unique_id devA "k").1 panelDev rfl, (C8_unique_id devBare "k").2 rfl⟩

/-- A concrete hub state before any login (fresh `__init__` state with a
listener registered). -/
def hub0 : HubState :=
  { logged_in := false, account := none, session_closed := false,
    undo_listener := true }

/-- C2: `login` first resets the logged-in flag to false; on connect
success it sets the flag and returns true; on any exception the
exception propagates unchanged and the flag is left false. -/
theorem C2_login_flag (s : HubState) (r : Except VivintError Unit) :
    (login_start s).logged_in = false ∧
    (r = .ok () → (login s r).1 = .ok true ∧ (login s r).2.logged_in = true) ∧
    (∀ e, r = .error e →
       (login s r).1 = .error e ∧ (login s r).2.logged_in = false) := by
  refine ⟨rfl, ?_, ?_⟩
  · rintro rfl
    exact ⟨rfl, rfl⟩
  · rintro e rfl
    exact ⟨rfl, rfl⟩

/-- Witness for C2 at the concrete state `hub0`: a successful connect
and a failing connect. -/
theorem C2_witness :
    ((login hub0 (.ok ())).1 = .ok true ∧
       (login hub0 (.ok ())).2.logged_in = true) ∧
    ((login hub0 (.error .other)).1 = .error .other ∧
       (login hub0 (.error .other)).2.logged_in = false) :=
  ⟨(C2_login_flag hub0 (.ok ())).2.1 rfl,
   (C2_login_flag hub0 (.error .other)).2.2 .other rfl⟩

/-- C3: `verify_mfa` on success sets the logged-in flag and returns
true; on failure it re-raises the exception unchanged and leaves the
flag at its pre-call value. -/
theorem C3_verify_mfa_flag (s : HubState) (r : Except VivintError Unit) :
    (r = .ok () →
       (verify_mfa s r).1 = .ok true ∧ (verify_mfa s r).2.logged_in = true) ∧
    (∀ e, r = .error e →
       (verify_mfa s r).1 = .error e ∧
       (verify_mfa s r).2.logged_in = s.logged_in) := by
  refine ⟨?_, ?_⟩
  · rintro rfl
    exact ⟨rfl, rfl⟩
  · rintro e rfl
    exact ⟨rfl, rfl⟩

/-- Witness for C3 at the concrete state `hub0` (flag false before the
call): success and failure outcomes. -/
theorem C3_witness :
    ((verify_mfa hub0 (.ok ())).1 = .ok true ∧
       (verify_mfa hub0 (.ok ())).2.logged_in = true) ∧
    ((verify_mfa hub0 (.error .authenticationError)).1 =
         .error .authenticationError ∧
       (verify_mfa hub0 (.error .authenticationError)).2.logged_in =
         hub0.logged_in) :=
  ⟨(C3_verify_mfa_flag hub0 (.ok ())).1 rfl,
   (C3_verify_mfa_flag hub0 (.error .authenticationError)).2
     .authenticationError rfl⟩

/-- C4: with an account handle present (after a login) and a teardown
callback held, the first `disconnect` invokes the callback, and the
second call performs no action at all (no account disconnect, no
session close, no callback), leaves the state unchanged, and raises no
error. -/
theorem C4_disconnect_twice (s : HubState) (a : Account)
    (hacc : s.account = some a) (hcb : s.undo_listener = true) :
    ∃ acts1 s1, disconnect s = some (acts1, s1) ∧
      acts1.invoked_callback = true ∧
      disconnect s1 = some (⟨false, false, false⟩, s1) := by
  obtain ⟨li, acc, sc, ul⟩ := s
  obtain rfl : acc = some a := hacc
  obtain rfl : ul = true := hcb
  obtain ⟨ac⟩ := a
  cases ac <;> cases sc <;> exact ⟨_, _, rfl, rfl, rfl⟩

/-- Witness for C4 at a concrete post-login state (connected account,
open session, listener held). -/
theorem C4_witness :
    ∃ acts1 s1,
      disconnect { logged_in := true, account := some { connected := true },
                   session_closed := false, undo_listener := true } =
          some (acts1, s1) ∧
      acts1.invoked_callback = true ∧
      disconnect s1 = some (⟨false, false, false⟩, s1) :=
  C4_disconnect_twice
    { logged_in := true, account := some { connected := true },
      session_closed := false, undo_listener := true }
    { connected := true } rfl rfl

/-- Inversion of a successful `attr_device_info` construction: the
record is built from the resolved device's attributes. -/
theorem attr_device_info_inv (d dr : VivintDevice) (info : DeviceInfo)
    (hres : resolve_device d = some dr)
    (hinfo : attr_device_info d = some info) :
    ∃ ident via, get_device_id dr = some ident ∧
      via_device_of dr = some via ∧
      info = { identifiers := [ident], name := info_name dr,
               manufacturer := dr.manufacturer, model := dr.model,
               sw_version := dr.software_version, via_device := via } := by
  unfold attr_device_info at hinfo
  rw [hres] at hinfo
  cases hgd : get_device_id dr with
  | none => simp [hgd] at hinfo
  | some ident =>
      cases hv : via_device_of dr with
      | none => simp [hgd, hv] at hinfo
      | some via =>
          simp only [hgd, hv] at hinfo
          exact ⟨ident, via, rfl, rfl, (Option.some.inj hinfo).symm⟩

/-- C9: in a successfully built device-info record, `via_device` is
unset exactly when the parent-resolved device is an alarm panel, and
otherwise equals the identity tuple of that device's owning panel. -/
theorem C9_via_device (d dr : VivintDevice) (info : DeviceInfo)
    (hres : resolve_device d = some dr)
    (hinfo : attr_device_info d = some info) :
    (info.via_device = none ↔ dr.is_alarm_panel = true) ∧
    (dr.is_alarm_panel = false →
       ∃ ap t, dr.alarm_panel = some ap ∧ get_device_id ap = some t ∧
         info.via_device = some t) := by
  obtain ⟨ident, via, hgd, hv, rfl⟩ := attr_device_info_inv d dr info hres hinfo
  unfold via_device_of at hv
  cases hpan : dr.is_alarm_panel with
  | true =>
      rw [hpan] at hv
      simp only [if_true] at hv
      obtain rfl : (none : Option (String × String)) = via :=
        Option.some.inj hv
      simp
  | false =>
      rw [hpan] at hv
      simp only [Bool.false_eq_true, if_false] at hv
      cases hap : dr.alarm_panel with
      | none => simp [hap] at hv
      | some ap =>
          simp only [hap] at hv
          cases hgt : get_device_id ap with
          | none => simp [hgt] at hv
          | some t =>
              simp only [hgt] at hv
              obtain rfl : some t = via := Option.some.inj hv
              exact ⟨by simp, fun _ => ⟨ap, t, rfl, hgt, rfl⟩⟩

/-- C10: in a successfully built device-info record, a `None` or empty
device name falls back to the device's class name. -/
theorem C10_name_fallback (d dr : VivintDevice) (info : DeviceInfo)
    (hres : resolve_device d = some dr)
    (hinfo : attr_device_info d = some info)
    (hname : dr.name = none ∨ dr.name = some "") :
    info.name = dr.class_name := by
  obtain ⟨ident, via, hgd, hv, rfl⟩ := attr_device_info_inv d dr info hres hinfo
  rcases hname with h | h <;> simp [info_name, h]

/-- The device-info record built for `panelDev`. -/
def infoPanel : DeviceInfo :=
  { identifiers := [("vivint", "100-100")], name := "Panel",
    manufacturer := some "Vivint", model := none, sw_version := none,
    via_device := none }

/-- The device-info record built for `devA`. -/
def infoA : DeviceInfo :=
  { identifiers := [("vivint", "100-5")], name := "A",
    manufacturer := none, model := none, sw_version := none,
    via_device := some ("vivint", "100-100") }

/-- A concrete device with an unset name, owned by `panelDev`. -/
def devNoName : VivintDevice :=
  .mk { id := "8", panel_id := "100", is_subdevice := false,
        name := none, manufacturer := none, model := none,
        software_version := none, capabilities := none, features := none,
        is_alarm_panel := false, class_name := "Camera" } none (some panelDev)

/-- The device-info record built for `devNoName`. -/
def infoNoName : DeviceInfo :=
  { identifiers := [("vivint", "100-8")], name := "Camera",
    manufacturer := none, model := none, sw_version := none,
    via_device := some ("vivint", "100-100") }

/-- Witness for C9: the alarm panel gets no `via_device`; `devA` gets
its owning panel's identity tuple. -/
theorem C9_witness :
    infoPanel.via_device = none ∧
    (∃ ap t, devA.alarm_panel = some ap ∧ get_device_id ap = some t ∧
       infoA.via_device = some t) :=
  ⟨(C9_via_device panelDev panelDev infoPanel rfl (by decide)).1.mpr rfl,
   (C9_via_device devA devA infoA rfl (by decide)).2 rfl⟩

/-- Witness for C10 at `devNoName` (name unset): the record's name is
the class name. -/
theorem C10_witness : infoNoName.name = devNoName.class_name :=
  C10_name_fallback devNoName devNoName infoNoName rfl (by decide) (Or.inl rfl)
